import Mathlib

/-!
# Verification of the pgextras diagnostic tool

A shallow embedding of `pgextras` (a Postgres diagnostic CLI) in Lean 4,
covering the version-aware query dispatch and execution layer:

* `scripts/__init__.py` — the `PgExtras` session class: lazy capability
  detection (`is_pg_at_least_nine_two`, `is_pg_at_least_thirteen`,
  `pg_stat_statement`), statement normalization and execution, query-text
  truncation, degraded results for a missing extension, and connection
  lifecycle.
* `pgextras.py` — the `main` driver: the operation catalog (`METHODS`),
  the `"all"` aggregate expansion, `getattr`-based dispatch, and the
  `SystemExit` path for unknown operation names.

The database server is modelled as an oracle (`Db`) mapping each executed
statement to either rows or a fault; the mutable `PgExtras` instance is
modelled as an explicit state record (`PgState`) threaded through every
operation, extended with the history of statements sent to the cursor.
-/

/-! ## Python string helpers

`execute` normalizes statements with `statement.replace("\n", "")` followed
by `" ".join(sql.split())`.  We model Python's `str.split()` (split on runs
of whitespace, dropping empty pieces) and `" ".join` on `List Char`.
-/

/-- Whitespace characters recognized by Python's `str.split()` (ASCII range). -/
def pyIsSpace (c : Char) : Bool :=
  c = ' ' || c = '\t' || c = '\n' || c = '\r' || c = '\x0b' || c = '\x0c'

/-- Tokenizer worker for `splitWS`: `acc` holds the (reversed) current
token.  Structurally recursive so that it evaluates inside the kernel. -/
def splitWSAux : List Char → List Char → List (List Char)
  | [], acc => if acc.isEmpty then [] else [acc.reverse]
  | c :: cs, acc =>
    if pyIsSpace c then
      if acc.isEmpty then splitWSAux cs [] else acc.reverse :: splitWSAux cs []
    else splitWSAux cs (c :: acc)

/-- Model of Python's `str.split()`: the maximal runs of non-whitespace
characters, in order. -/
def splitWS (l : List Char) : List (List Char) :=
  splitWSAux l []

/-- Model of Python's `" ".join(...)`: tokens interleaved with single spaces. -/
def joinWS : List (List Char) → List Char
  | [] => []
  | [t] => t
  | t :: t2 :: ts => t ++ ' ' :: joinWS (t2 :: ts)

/-- Model of Python's `statement.replace("\n", "")`: delete every newline. -/
def removeNewlines (l : List Char) : List Char :=
  l.filter (fun c => !(c = '\n'))

/-- The statement normalization performed by `PgExtras.execute` before a
statement is sent: `sql = statement.replace("\n", "")` followed by
`sql = " ".join(sql.split())`  (`scripts/__init__.py`, lines 181-182). -/
def normalizeSqlL (l : List Char) : List Char :=
  joinWS (splitWS (removeNewlines l))

/-- String-level wrapper for `normalizeSqlL`. -/
def normalizeSql (s : String) : String :=
  ⟨normalizeSqlL s.data⟩

/-- The specification's notion of whitespace normalization: collapse every
run of whitespace characters (including newlines) to a single space, keeping
the whitespace-separated tokens in order.  Stated from the specification's
words, to be compared with `normalizeSql`, which is taken from the source. -/
def specCollapseWS (s : String) : String :=
  ⟨joinWS (splitWS s.data)⟩

/-! ## Query-text truncation (`truncate_query`)

`scripts/__init__.py` lines 87-96: when `self.truncate` is set, the
query-text column is wrapped in a SQL `CASE` expression; otherwise the
column name is returned unchanged.
-/

/-- Embedding of `PgExtras.truncate_query(column_name)`; the first argument
is the instance attribute `self.truncate`.  The returned text is the exact
f-string from the source (newlines and indentation included). -/
def truncate_query (truncate : Bool) (column_name : String) : String :=
  if truncate then
    "\n                CASE WHEN length(" ++ column_name ++ ") < 120\n                    THEN " ++ column_name ++ "\n                    ELSE substr(" ++ column_name ++ ", 0, 120) || \x27..\x27\n                END\n            "
  else column_name

/-- PostgreSQL semantics of `substr(string, start, count)`: the characters
at 1-based positions `max(start, 1) .. start + count - 1`, clipped to the
string; empty when that range is empty.  (PostgreSQL treats the string as
padded conceptually: `substr(s, 0, 120)` yields positions 1..119.) -/
def pgSubstr (s : String) (start : Int) (count : Nat) : String :=
  let lo : Int := max start 1
  let hi : Int := start + count - 1
  if hi < lo then "" else ⟨(s.data.take hi.toNat).drop (lo.toNat - 1)⟩

/-- PostgreSQL evaluation, on a query text `s`, of the `CASE` expression
produced by `truncate_query true`:
`CASE WHEN length(s) < 120 THEN s ELSE substr(s, 0, 120) || '..' END`,
with `length`/`substr` given PostgreSQL character semantics. -/
def renderTruncatedColumn (s : String) : String :=
  if s.length < 120 then s else pgSubstr s 0 120 ++ ".."

/-! ## Version parsing and comparison

`is_pg_at_least_nine_two` / `is_pg_at_least_thirteen`
(`scripts/__init__.py` lines 129-163) extract the version with the regex
`PostgreSQL (\d+(\.\d+)+) on` (via `re.match`, anchored at the start) and
compare it against the constants `postgres_9 = "9.2.0"` / `postgres_13 =
"13"` using `packaging.version.parse`.
-/

/-- Integer value of a digit string, as Python's `int()` on each regex
group (leading zeros allowed). -/
def digitsToNat (ds : List Char) : Nat :=
  ds.foldl (fun n c => 10 * n + (c.toNat - 48)) 0

/-- Does a character list consist of one or more digit groups separated by
single dots, with at least `minParts` groups?  (`\d+(\.\d+)+` for
`minParts = 2`; a bare numeric dotted version for `minParts = 1`.) -/
def isDottedNumeric (minParts : Nat) (l : List Char) : Bool :=
  let parts := l.splitOn '.'
  decide (minParts ≤ parts.length) &&
    parts.all (fun p => !p.isEmpty && p.all Char.isDigit)

/-- Model of `packaging.version.parse` restricted to the purely numeric
dotted versions this program produces: the release components as a list of
naturals (`"9.2.0"` to `[9, 2, 0]`, `"13"` to `[13]`). -/
def parse_version (s : String) : Option (List Nat) :=
  if isDottedNumeric 1 s.data then
    some ((s.data.splitOn '.').map digitsToNat)
  else none

/-- Model of `re.match(r"PostgreSQL (\d+(\.\d+)+) on", version_string)`
followed by `matches.groups()[0]` and `packaging.version.parse`: `some`
of the release components when the string matches, `none` when `re.match`
returns `None`.  Since `\d` and `.` never match a space, the regex's
backtracking is equivalent to maximal munch of digits-and-dots followed by
a check for the literal `" on"`. -/
def parseVersionString (s : String) : Option (List Nat) :=
  let l := s.data
  if l.take 11 = "PostgreSQL ".data then
    let rest := l.drop 11
    let vtok := rest.takeWhile (fun c => c.isDigit || c = '.')
    let after := rest.dropWhile (fun c => c.isDigit || c = '.')
    if after.take 3 = " on".data then
      if isDottedNumeric 2 vtok then
        some ((vtok.splitOn '.').map digitsToNat)
      else none
    else none
  else none

/-- Comparison of two release-component lists under `packaging.version`
ordering: componentwise numeric comparison with implicit zero padding
(`[13]` and `[13, 0]` are equal; `[9, 2] < [9, 3, 3]`). -/
def cmpVersions : List Nat → List Nat → Ordering
  | [], bs => if bs.all (fun b => b = 0) then Ordering.eq else Ordering.lt
  | a :: as, [] => if 0 < a then Ordering.gt else cmpVersions as []
  | a :: as, b :: bs =>
    if a < b then Ordering.lt
    else if b < a then Ordering.gt
    else cmpVersions as bs

/-- Version threshold constant `postgres_9` (`scripts/__init__.py` line 17). -/
def postgres_9 : String := "9.2.0"

/-- Version threshold constant `postgres_13` (`scripts/__init__.py` line 18). -/
def postgres_13 : String := "13"

/-- The boolean computed (and then cached) by `is_pg_at_least_nine_two`
from the server's version string: `parse_version(version) >
parse_version(postgres_9)`; `none` when the regex does not match. -/
def nineTwoDecision (version_string : String) : Option Bool :=
  match parseVersionString version_string, parse_version postgres_9 with
  | some v, some t => some (decide (cmpVersions v t = Ordering.gt))
  | _, _ => none

/-- The boolean computed (and then cached) by `is_pg_at_least_thirteen`:
`parse_version(version) >= parse_version("13")`; `none` when the regex
does not match. -/
def thirteenDecision (version_string : String) : Option Bool :=
  match parseVersionString version_string, parse_version postgres_13 with
  | some v, some t => some (decide (cmpVersions v t ≠ Ordering.lt))
  | _, _ => none

/-! ## The session state model

The `PgExtras` instance (`scripts/__init__.py` lines 21-45) is modelled as
an explicit record of its mutable attributes; the database server is an
oracle answering each (normalized) statement.  Result rows are association
lists from column name to value, mirroring `psycopg2`'s named-tuple rows.
-/

/-- A value in a result row (the subset of column types the core inspects). -/
inductive Value
  | vStr (s : String)
  | vBool (b : Bool)
  | vNull

deriving DecidableEq

/-- A result row: column names paired with values, in column order. -/
abbrev Row := List (String × Value)

/-- The database oracle: what the server answers to each normalized
statement — either rows, or a query fault raised by the client library. -/
structure Db where
  respond : String → Except Unit (List Row)

deriving instance DecidableEq for Except

/-- Python exceptions that can escape the `PgExtras` methods. -/
inductive PgErr
  | queryFault
  | attributeError (msg : String)
  | indexError
  | typeError

deriving DecidableEq

/-- The mutable attributes set in `PgExtras.__init__` (lines 24-32), plus
`sent`, the model's history of statements given to `cursor.execute`.
`_cursor`/`_conn` are `none` when the Python attribute is `None`, and
`some b` with `b` = still-open when the object exists. -/
structure PgState where
  dsn : String
  _pg_stat_statement : Option Bool
  _cursor : Option Bool
  _conn : Option Bool
  _is_pg_at_least_nine_two : Option Bool
  _is_pg_at_least_thirteen : Option Bool
  log_query : Bool
  truncate : Bool
  sent : List String

deriving DecidableEq

/-- `PgExtras.__init__(dsn, logquery, truncate)`. -/
def PgExtras.init (dsn : String) (logquery : Bool) (truncate : Bool) : PgState :=
  { dsn := dsn, _pg_stat_statement := none, _cursor := none, _conn := none,
    _is_pg_at_least_nine_two := none, _is_pg_at_least_thirteen := none,
    log_query := logquery, truncate := truncate, sent := [] }

/-- The `cursor` property (lines 47-55): on first access, connect and
create the cursor; afterwards reuse the existing cursor object. -/
def ensureCursor (s : PgState) : PgState :=
  match s._cursor with
  | none => { s with _conn := some true, _cursor := some true }
  | some _ => s

/-- `PgExtras.close_db_connection` (lines 165-171): close the cursor and
the connection if they exist. -/
def close_db_connection (s : PgState) : PgState :=
  let s1 := match s._cursor with
    | some _ => { s with _cursor := some false }
    | none => s
  match s1._conn with
  | some _ => { s1 with _conn := some false }
  | none => s1

/-- Modelled from the spec: the SQL template texts live in
`scripts.sql_constants`, a module that is not among the sources; only each
template's identity matters to the claims, so the catalog maps each
operation name to a distinct placeholder statement string. -/
def sqlFor (name : String) : String :=
  "SQL " ++ name

/-- Modelled from the spec: `str.format` substitution of the
version-dependent fragments into a template whose text is unknown,
represented by appending the substituted fragments to the placeholder. -/
def fmtArgs (template : String) (args : List String) : String :=
  template ++ String.join (args.map (fun a => " " ++ a))

/-- `PgExtras.execute(statement)` (lines 173-186): normalize the statement,
send it over the (lazily created) cursor and fetch all rows.  The
normalized statement is appended to `sent`; a fault from the oracle models
an exception raised by `cursor.execute`. -/
def execute (db : Db) (statement : String) (s : PgState) :
    Except PgErr (List Row) × PgState :=
  let sqlText := normalizeSql statement
  let s1 := ensureCursor s
  let s2 := { s1 with sent := s1.sent ++ [sqlText] }
  match db.respond sqlText with
  | Except.ok rows => (Except.ok rows, s2)
  | Except.error _ => (Except.error PgErr.queryFault, s2)

/-- `PgExtras.version` (lines 387-394). -/
def version (db : Db) (s : PgState) : Except PgErr (List Row) × PgState :=
  execute db (sqlFor "version") s

/-- Python attribute access `row.field` on the first row of a result list:
`IndexError` on an empty list, `AttributeError` on a missing column. -/
def firstRowField (rows : List Row) (field : String) : Except PgErr Value :=
  match rows with
  | [] => Except.error PgErr.indexError
  | r :: _ =>
    match r.lookup field with
    | some v => Except.ok v
    | none => Except.error (PgErr.attributeError
        ("\x27Record\x27 object has no attribute \x27" ++ field ++ "\x27"))

/-- Python truthiness of a row value (`if is_available:`). -/
def truthy : Value → Bool
  | Value.vStr t => !(t == "")
  | Value.vBool b => b
  | Value.vNull => false

/-- The message produced when `re.match` returns `None` and the code calls
`.groups()` on it (`matches.groups()` with `matches is None`). -/
def noneGroupsMsg : String :=
  "\x27NoneType\x27 object has no attribute \x27groups\x27"

/-- `PgExtras.pg_stat_statement` (lines 98-112): cached detection of the
`pg_stat_statements` extension via the first row's `available` column. -/
def pg_stat_statement (db : Db) (s : PgState) : Except PgErr Bool × PgState :=
  match s._pg_stat_statement with
  | some b => (Except.ok b, s)
  | none =>
    match execute db (sqlFor "pg_stat_statement") s with
    | (Except.ok results, s1) =>
      match firstRowField results "available" with
      | Except.ok v =>
        let b := truthy v
        (Except.ok b, { s1 with _pg_stat_statement := some b })
      | Except.error e => (Except.error e, s1)
    | (Except.error e, s1) => (Except.error e, s1)

/-- `PgExtras.is_pg_at_least_nine_two` (lines 129-145): cached comparison of
the parsed server version against `postgres_9`, via one `version()` query;
a non-matching version string raises `AttributeError` (`None.groups()`),
and a non-string `version` column raises `TypeError` inside `re.match`. -/
def is_pg_at_least_nine_two (db : Db) (s : PgState) :
    Except PgErr Bool × PgState :=
  match s._is_pg_at_least_nine_two with
  | some b => (Except.ok b, s)
  | none =>
    match version db s with
    | (Except.ok results, s1) =>
      match firstRowField results "version" with
      | Except.ok (Value.vStr vs) =>
        match nineTwoDecision vs with
        | some b => (Except.ok b, { s1 with _is_pg_at_least_nine_two := some b })
        | none => (Except.error (PgErr.attributeError noneGroupsMsg), s1)
      | Except.ok _ => (Except.error PgErr.typeError, s1)
      | Except.error e => (Except.error e, s1)
    | (Except.error e, s1) => (Except.error e, s1)

/-- `PgExtras.is_pg_at_least_thirteen` (lines 147-163): same shape as
`is_pg_at_least_nine_two` with the `postgres_13` threshold and `>=`. -/
def is_pg_at_least_thirteen (db : Db) (s : PgState) :
    Except PgErr Bool × PgState :=
  match s._is_pg_at_least_thirteen with
  | some b => (Except.ok b, s)
  | none =>
    match version db s with
    | (Except.ok results, s1) =>
      match firstRowField results "version" with
      | Except.ok (Value.vStr vs) =>
        match thirteenDecision vs with
        | some b => (Except.ok b, { s1 with _is_pg_at_least_thirteen := some b })
        | none => (Except.error (PgErr.attributeError noneGroupsMsg), s1)
      | Except.ok _ => (Except.error PgErr.typeError, s1)
      | Except.error e => (Except.error e, s1)
    | (Except.error e, s1) => (Except.error e, s1)

/-- The `query_column` property (lines 57-65). -/
def query_column (db : Db) (s : PgState) : Except PgErr String × PgState :=
  match is_pg_at_least_nine_two db s with
  | (Except.ok true, s1) => (Except.ok "query", s1)
  | (Except.ok false, s1) => (Except.ok "current_query", s1)
  | (Except.error e, s1) => (Except.error e, s1)

/-- The `time_column` property (lines 67-75). -/
def time_column (db : Db) (s : PgState) : Except PgErr String × PgState :=
  match is_pg_at_least_thirteen db s with
  | (Except.ok true, s1) => (Except.ok "total_exec_time", s1)
  | (Except.ok false, s1) => (Except.ok "total_time", s1)
  | (Except.error e, s1) => (Except.error e, s1)

/-- The `pid_column` property (lines 77-85). -/
def pid_column (db : Db) (s : PgState) : Except PgErr String × PgState :=
  match is_pg_at_least_nine_two db s with
  | (Except.ok true, s1) => (Except.ok "pid", s1)
  | (Except.ok false, s1) => (Except.ok "procpid", s1)
  | (Except.error e, s1) => (Except.error e, s1)

/-- The literal instructional message of
`get_missing_pg_stat_statement_error` (lines 114-127), exactly as in the
source (a triple-quoted string with its newlines and indentation). -/
def missingExtensionText : String :=
  "\n            pg_stat_statements extension needs to be installed in the\n            public schema first. This extension is only available on\n            Postgres versions 9.2 or greater. You can install it by\n            adding pg_stat_statements to shared_preload_libraries in\n            postgresql.conf, restarting postgres and then running the\n            following sql statement in your database:\n            CREATE EXTENSION pg_stat_statements;\n        "

/-- `PgExtras.get_missing_pg_stat_statement_error` (lines 114-127): a
single `Record` with one field `error` carrying the instructional text. -/
def get_missing_pg_stat_statement_error : Row :=
  [("error", Value.vStr missingExtensionText)]

/-! ## The diagnostic operations -/

/-- `PgExtras.calls` (lines 206-218): if the extension is present, resolve
the query column (with truncation) and the time column, then run the
`CALLS` template; otherwise return the degraded single-row result. -/
def calls (db : Db) (s : PgState) : Except PgErr (List Row) × PgState :=
  match pg_stat_statement db s with
  | (Except.ok true, s1) =>
    match query_column db s1 with
    | (Except.ok qc, s2) =>
      let q := truncate_query s2.truncate qc
      match time_column db s2 with
      | (Except.ok tc, s3) => execute db (fmtArgs (sqlFor "calls") [q, tc]) s3
      | (Except.error e, s3) => (Except.error e, s3)
    | (Except.error e, s2) => (Except.error e, s2)
  | (Except.ok false, s1) => (Except.ok [get_missing_pg_stat_statement_error], s1)
  | (Except.error e, s1) => (Except.error e, s1)

/-- `PgExtras.outliers` (lines 230-245): same structure as `calls` with the
`OUTLIERS` template. -/
def outliers (db : Db) (s : PgState) : Except PgErr (List Row) × PgState :=
  match pg_stat_statement db s with
  | (Except.ok true, s1) =>
    match query_column db s1 with
    | (Except.ok qc, s2) =>
      let q := truncate_query s2.truncate qc
      match time_column db s2 with
      | (Except.ok tc, s3) => execute db (fmtArgs (sqlFor "outliers") [q, tc]) s3
      | (Except.error e, s3) => (Except.error e, s3)
    | (Except.error e, s2) => (Except.error e, s2)
  | (Except.ok false, s1) => (Except.ok [get_missing_pg_stat_statement_error], s1)
  | (Except.error e, s1) => (Except.error e, s1)

/-- `PgExtras.blocking` (lines 220-228). -/
def blocking (db : Db) (s : PgState) : Except PgErr (List Row) × PgState :=
  match query_column db s with
  | (Except.ok qc, s1) =>
    match pid_column db s1 with
    | (Except.ok pc, s2) => execute db (fmtArgs (sqlFor "blocking") [qc, pc]) s2
    | (Except.error e, s2) => (Except.error e, s2)
  | (Except.error e, s1) => (Except.error e, s1)

/-- The idle-session filter fragment used by `long_running_queries` and
`ps` (lines 280 and 382). -/
def idleFragment (nineTwo : Bool) : String :=
  if nineTwo then "AND state <> \x27idle\x27"
  else "AND current_query <> \x27<IDLE>\x27"

/-- `PgExtras.long_running_queries` (lines 273-284). -/
def long_running_queries (db : Db) (s : PgState) :
    Except PgErr (List Row) × PgState :=
  match is_pg_at_least_nine_two db s with
  | (Except.ok b, s1) =>
    let idle := idleFragment b
    match pid_column db s1 with
    | (Except.ok pc, s2) =>
      match query_column db s2 with
      | (Except.ok qc, s3) =>
        execute db (fmtArgs (sqlFor "long_running_queries") [pc, qc, idle]) s3
      | (Except.error e, s3) => (Except.error e, s3)
    | (Except.error e, s2) => (Except.error e, s2)
  | (Except.error e, s1) => (Except.error e, s1)

/-- `PgExtras.ps` (lines 374-385). -/
def ps (db : Db) (s : PgState) : Except PgErr (List Row) × PgState :=
  match is_pg_at_least_nine_two db s with
  | (Except.ok b, s1) =>
    let idle := idleFragment b
    match query_column db s1 with
    | (Except.ok qc, s2) =>
      let q := truncate_query s2.truncate qc
      match pid_column db s2 with
      | (Except.ok pc, s3) => execute db (fmtArgs (sqlFor "ps") [pc, q, idle]) s3
      | (Except.error e, s3) => (Except.error e, s3)
    | (Except.error e, s2) => (Except.error e, s2)
  | (Except.error e, s1) => (Except.error e, s1)

/-- `PgExtras.locks` (lines 354-363). -/
def locks (db : Db) (s : PgState) : Except PgErr (List Row) × PgState :=
  match pid_column db s with
  | (Except.ok pc, s1) =>
    match query_column db s1 with
    | (Except.ok qc, s2) => execute db (fmtArgs (sqlFor "locks") [pc, qc]) s2
    | (Except.error e, s2) => (Except.error e, s2)
  | (Except.error e, s1) => (Except.error e, s1)

/-- The operations that run a fixed template with no version-dependent
substitution (`cache_hit`, `bloat`, `vacuum_stats`, the size reports, ...):
each just executes its template (lines 188-204, 247-352, 365-372). -/
def plainOperation (db : Db) (name : String) (s : PgState) :
    Except PgErr (List Row) × PgState :=
  execute db (sqlFor name) s

/-! ## The driver (`pgextras.py`)

`main` expands the special name `"all"` when it is the only requested name,
then for each requested name performs `getattr(pg, method)` inside a
`try/except AttributeError` that re-raises as `SystemExit(1, str(error))`,
and finally calls the fetched attribute.  The `with` block guarantees
`close_db_connection` on every exit path.
-/

/-- The operation catalog `METHODS` of `pgextras.py` (lines 11-66):
operation names with their help descriptions, in source order. -/
def METHODS : List (String × String) :=
  [("bloat", "Table and index bloat in your database ordered by most wasteful."),
   ("blocking", "Queries holding locks other queryes are qaiting to be releases"),
   ("cache_hit", "Calculates your cache hit rate (effective databases are at 99% and up)."),
   ("calls", "Show 10 most frequently called queries. Requires the pg_stat_statements."),
   ("index_usage", "Calculates your index hit rate (effective databases are at 99% and up)."),
   ("locks", "Display queries with active locks."),
   ("long_running_queries", "Show all queries longer than five minutes by descending duration."),
   ("outliers", "Show 10 queries that have longest execution time in aggregate. Requires the pg_stat_statments."),
   ("ps", "View active queries with execution time."),
   ("seq_scans", "Show the count of sequential scans by table descending by order."),
   ("total_index_size", "Show the total size of all indexes."),
   ("total_indexes_size", "Show the total size of all the indexes on eachtable, descending by size."),
   ("table_size", "Show the size of the tables (excluding indexes),descending by size."),
   ("total_table_size", "Show the size of the tables (including indexes), descending by size."),
   ("unused_indexes", "Show unused and almost unused indexes, ordered by their size relative to the number of index scans."),
   ("vacuum_stats", "Show dead rows and whether an automatic vacuum is expected to be triggered."),
   ("version", "Get the Postgres server version."),
   ("all", "Run all the methods.")]

/-- The attributes reachable by `getattr` on a `PgExtras` instance with a
regular name: the instance attributes set in `__init__` plus the methods
and properties of the class (double-underscore object-protocol attributes
omitted; no claim mentions them). -/
def pgExtrasAttrs : List String :=
  ["dsn", "_pg_stat_statement", "_cursor", "_conn",
   "_is_pg_at_least_nine_two", "_is_pg_at_least_thirteen",
   "log_query", "truncate",
   "cursor", "query_column", "time_column", "pid_column",
   "truncate_query", "pg_stat_statement",
   "get_missing_pg_stat_statement_error",
   "is_pg_at_least_nine_two", "is_pg_at_least_thirteen",
   "close_db_connection", "execute",
   "cache_hit", "index_usage", "calls", "blocking", "outliers",
   "vacuum_stats", "bloat", "long_running_queries", "seq_scans",
   "unused_indexes", "total_table_size", "total_indexes_size",
   "table_size", "index_size", "total_index_size", "locks",
   "table_indexes_size", "ps", "version"]

/-- The message of the `AttributeError` raised by
`getattr(pg, name)` for a name that is not an attribute. -/
def noAttrMsg (name : String) : String :=
  "\x27PgExtras\x27 object has no attribute \x27" ++ name ++ "\x27"

/-- Discard the value of a method result, keeping error and state. -/
def dropResult {α : Type} (r : Except PgErr α × PgState) :
    Except PgErr Unit × PgState :=
  (r.1.map (fun _ => ()), r.2)

/-- Model of `getattr(pg, name)`: looking up a property name evaluates its
getter (so `cursor` connects, and the column properties may query the
server and raise); looking up any other existing attribute just succeeds;
a name that is no attribute raises `AttributeError`. -/
def getattrPhase (db : Db) (name : String) (s : PgState) :
    Except PgErr Unit × PgState :=
  if name = "cursor" then (Except.ok (), ensureCursor s)
  else if name = "query_column" then dropResult (query_column db s)
  else if name = "time_column" then dropResult (time_column db s)
  else if name = "pid_column" then dropResult (pid_column db s)
  else if name ∈ pgExtrasAttrs then (Except.ok (), s)
  else (Except.error (PgErr.attributeError (noAttrMsg name)), s)

/-- Model of `func()` after a successful `getattr`: the zero-argument
methods run; calling a method that needs arguments (`execute`,
`truncate_query`) or a non-callable attribute value raises `TypeError`. -/
def invokeMethod (db : Db) (name : String) (s : PgState) :
    Except PgErr Unit × PgState :=
  if name = "version" then dropResult (version db s)
  else if name = "cache_hit" then dropResult (plainOperation db "cache_hit" s)
  else if name = "index_usage" then dropResult (plainOperation db "index_usage" s)
  else if name = "vacuum_stats" then dropResult (plainOperation db "vacuum_stats" s)
  else if name = "bloat" then dropResult (plainOperation db "bloat" s)
  else if name = "seq_scans" then dropResult (plainOperation db "seq_scans" s)
  else if name = "unused_indexes" then dropResult (plainOperation db "unused_indexes" s)
  else if name = "total_table_size" then dropResult (plainOperation db "total_table_size" s)
  else if name = "total_indexes_size" then dropResult (plainOperation db "total_indexes_size" s)
  else if name = "table_size" then dropResult (plainOperation db "table_size" s)
  else if name = "index_size" then dropResult (plainOperation db "index_size" s)
  else if name = "total_index_size" then dropResult (plainOperation db "total_index_size" s)
  else if name = "table_indexes_size" then dropResult (plainOperation db "table_indexes_size" s)
  else if name = "calls" then dropResult (calls db s)
  else if name = "outliers" then dropResult (outliers db s)
  else if name = "blocking" then dropResult (blocking db s)
  else if name = "long_running_queries" then dropResult (long_running_queries db s)
  else if name = "ps" then dropResult (ps db s)
  else if name = "locks" then dropResult (locks db s)
  else if name = "pg_stat_statement" then dropResult (pg_stat_statement db s)
  else if name = "is_pg_at_least_nine_two" then dropResult (is_pg_at_least_nine_two db s)
  else if name = "is_pg_at_least_thirteen" then dropResult (is_pg_at_least_thirteen db s)
  else if name = "close_db_connection" then (Except.ok (), close_db_connection s)
  else if name = "get_missing_pg_stat_statement_error" then (Except.ok (), s)
  else (Except.error PgErr.typeError, s)

/-- How a run of `main` can terminate abnormally: the `SystemExit(1, msg)`
raised for an unknown operation name, or any other exception propagating
uncaught out of a method call. -/
inductive MainErr
  | systemExit (code : Nat) (msg : String)
  | uncaught (e : PgErr)

deriving DecidableEq

/-- The per-method loop of `main` (`pgextras.py` lines 75-97): `getattr`
wrapped in `try/except AttributeError` re-raised as `SystemExit(1,
str(error))`, then the call `func()`; on success the loop continues with
the remaining names.  The returned list records the names whose invocation
completed, in order. -/
def runMethods (db : Db) : List String → PgState →
    Except MainErr (List String) × PgState
  | [], s => (Except.ok [], s)
  | m :: ms, s =>
    match getattrPhase db m s with
    | (Except.error (PgErr.attributeError msg), s1) =>
      (Except.error (MainErr.systemExit 1 msg), s1)
    | (Except.error e, s1) => (Except.error (MainErr.uncaught e), s1)
    | (Except.ok _, s1) =>
      match invokeMethod db m s1 with
      | (Except.error e, s2) => (Except.error (MainErr.uncaught e), s2)
      | (Except.ok _, s2) =>
        match runMethods db ms s2 with
        | (Except.ok done, s3) => (Except.ok (m :: done), s3)
        | (Except.error e, s3) => (Except.error e, s3)

/-- The `"all"` expansion of `main` (lines 72-74): only when the requested
list is exactly `["all"]`, replace it by every catalog name and
`list.remove("all")` (which drops the first occurrence). -/
def expandMethods (methods : List String) : List String :=
  if methods = ["all"] then (METHODS.map Prod.fst).erase "all" else methods

/-- `main(args)` (lines 69-97): build the session (`logquery=False`,
`truncate=True`), expand `"all"`, run the requested methods, and — by the
`with` block — run `close_db_connection` on every exit path. -/
def mainRun (db : Db) (dsn : String) (methods : List String) :
    Except MainErr (List String) × PgState :=
  let r := runMethods db (expandMethods methods) (PgExtras.init dsn false true)
  (r.1, close_db_connection r.2)

/-! ## Concrete oracles and states for concrete runs -/

/-- Whether a modelled cursor/connection attribute is an open object. -/
def isOpen : Option Bool → Bool
  | some true => true
  | _ => false

/-- A fresh session state, as `main` builds it (`logquery=False`,
`truncate=True`). -/
def initialState : PgState :=
  PgExtras.init "postgres://localhost/db" false true

/-- A benign oracle: a parsable 9.3.3 version string, an available
`pg_stat_statements` extension, and no rows for any other statement. -/
def goodDb : Db :=
  Db.mk (fun stmt =>
    if stmt = normalizeSql (sqlFor "version") then
      Except.ok [[("version",
        Value.vStr "PostgreSQL 9.3.3 on x86_64-apple-darwin13.0.0")]]
    else if stmt = normalizeSql (sqlFor "pg_stat_statement") then
      Except.ok [[("available", Value.vBool true)]]
    else Except.ok [])

/-- An oracle whose extension-presence check reports unavailable. -/
def noStatDb : Db :=
  Db.mk (fun stmt =>
    if stmt = normalizeSql (sqlFor "version") then
      Except.ok [[("version",
        Value.vStr "PostgreSQL 9.3.3 on x86_64-apple-darwin13.0.0")]]
    else if stmt = normalizeSql (sqlFor "pg_stat_statement") then
      Except.ok [[("available", Value.vBool false)]]
    else Except.ok [])

/-- An oracle whose version row does not match `PostgreSQL <version> on
<platform>`. -/
def badVersionDb : Db :=
  Db.mk (fun stmt =>
    if stmt = normalizeSql (sqlFor "version") then
      Except.ok [[("version", Value.vStr "EnterpriseDB 9.3.3, compiled")]]
    else Except.ok [])

/-- An oracle for a server at exactly version 9.2.0. -/
def db92 : Db :=
  Db.mk (fun stmt =>
    if stmt = normalizeSql (sqlFor "version") then
      Except.ok [[("version", Value.vStr "PostgreSQL 9.2.0 on x86_64-pc-linux-gnu")]]
    else Except.ok [])

/-! ## Supporting lemmas and claim theorems -/

set_option maxRecDepth 20000

/-- Length of `dropWhile` never exceeds the input length (termination helper). -/
theorem length_dropWhile_le {α : Type} (p : α → Bool) :
    ∀ l : List α, (l.dropWhile p).length ≤ l.length := by
  intro l
  induction l with
  | nil => simp [List.dropWhile]
  | cons a l ih =>
    by_cases h : p a
    · simp [List.dropWhile_cons_of_pos h]
      omega
    · simp [List.dropWhile_cons_of_neg h]

/-- Splitting the empty list yields no tokens. -/
theorem splitWS_nil : splitWS [] = [] := rfl

/-- Splitting skips a leading whitespace character. -/
theorem splitWS_cons_space {c : Char} {cs : List Char} (hc : pyIsSpace c = true) :
    splitWS (c :: cs) = splitWS cs := by
  simp [splitWS, splitWSAux, hc]

/-- Characterization of `splitWSAux` with a nonempty accumulator: it closes
the current token with the next maximal non-whitespace run. -/
theorem splitWSAux_acc :
    ∀ (cs : List Char) (acc : List Char), acc ≠ [] →
      splitWSAux cs acc =
        (acc.reverse ++ cs.takeWhile (fun x => !pyIsSpace x)) ::
          splitWS (cs.dropWhile (fun x => !pyIsSpace x)) := by
  intro cs
  induction cs with
  | nil =>
    intro acc hacc
    rcases acc with _ | ⟨a, as⟩
    · exact absurd rfl hacc
    · simp [splitWSAux, splitWS]
  | cons c cs' ih =>
    intro acc hacc
    rcases acc with _ | ⟨a, as⟩
    · exact absurd rfl hacc
    · by_cases hc : pyIsSpace c
      · have hacc' : (a :: as).isEmpty = false := rfl
        rw [splitWSAux]
        rw [if_pos hc, if_neg (by simp)]
        have ht : (c :: cs').takeWhile (fun x => !pyIsSpace x) = [] := by
          simp [List.takeWhile_cons_of_neg, hc]
        have hd : (c :: cs').dropWhile (fun x => !pyIsSpace x) = c :: cs' := by
          simp [List.dropWhile_cons_of_neg, hc]
        rw [ht, hd, List.append_nil, splitWS_cons_space hc]
        rfl
      · rw [splitWSAux, if_neg hc]
        rw [ih (c :: a :: as) (by simp)]
        have ht : (c :: cs').takeWhile (fun x => !pyIsSpace x) =
            c :: cs'.takeWhile (fun x => !pyIsSpace x) := by
          simp [List.takeWhile_cons_of_pos, hc]
        have hd : (c :: cs').dropWhile (fun x => !pyIsSpace x) =
            cs'.dropWhile (fun x => !pyIsSpace x) := by
          simp [List.dropWhile_cons_of_pos, hc]
        rw [ht, hd]
        simp

/-- Splitting at a leading non-whitespace character grabs the maximal
non-whitespace run as the first token. -/
theorem splitWS_cons_nonspace {c : Char} {cs : List Char}
    (hc : pyIsSpace c = false) :
    splitWS (c :: cs) =
      (c :: cs.takeWhile (fun x => !pyIsSpace x)) ::
        splitWS (cs.dropWhile (fun x => !pyIsSpace x)) := by
  show splitWSAux (c :: cs) [] = _
  rw [splitWSAux, if_neg (by simp [hc])]
  rw [splitWSAux_acc cs [c] (by simp)]
  simp

/-- Auxiliary form of `splitWS_tokens`, by strong induction on length. -/
theorem splitWS_tokens_aux :
    ∀ (n : Nat) (l : List Char), l.length ≤ n →
      ∀ t ∈ splitWS l, t ≠ [] ∧ ∀ c ∈ t, pyIsSpace c = false := by
  intro n
  induction n with
  | zero =>
    intro l hl t ht
    rcases l with _ | ⟨c, cs⟩
    · rw [splitWS_nil] at ht
      exact absurd ht (List.not_mem_nil t)
    · simp at hl
  | succ n ih =>
    intro l hl t ht
    rcases l with _ | ⟨c, cs⟩
    · rw [splitWS_nil] at ht
      exact absurd ht (List.not_mem_nil t)
    · simp only [List.length_cons, Nat.succ_le_succ_iff] at hl
      cases hc : pyIsSpace c with
      | true =>
        rw [splitWS_cons_space hc] at ht
        exact ih cs hl t ht
      | false =>
        rw [splitWS_cons_nonspace hc] at ht
        rw [List.mem_cons] at ht
        rcases ht with ht | ht
        · subst ht
          refine ⟨by simp, ?_⟩
          intro x hx
          rw [List.mem_cons] at hx
          rcases hx with hx | hx
          · subst hx
            exact hc
          · have := List.mem_takeWhile_imp hx
            simpa using this
        · exact ih _ (le_trans (length_dropWhile_le _ _) hl) t ht

/-- Every token produced by `splitWS` is nonempty and whitespace-free. -/
theorem splitWS_tokens (l : List Char) :
    ∀ t ∈ splitWS l, t ≠ [] ∧ ∀ c ∈ t, pyIsSpace c = false :=
  splitWS_tokens_aux l.length l le_rfl

/-- `takeWhile` passes over a block of elements that all satisfy `p`. -/
theorem takeWhile_append_all {α : Type} {p : α → Bool} :
    ∀ (a b : List α), (∀ x ∈ a, p x = true) →
      (a ++ b).takeWhile p = a ++ b.takeWhile p := by
  intro a
  induction a with
  | nil => intro b _; simp
  | cons x xs ih =>
    intro b h
    have hx : p x = true := h x (by simp)
    simp only [List.cons_append, List.takeWhile_cons_of_pos hx]
    rw [ih b (fun y hy => h y (by simp [hy]))]

/-- `dropWhile` drops a block of elements that all satisfy `p`. -/
theorem dropWhile_append_all {α : Type} {p : α → Bool} :
    ∀ (a b : List α), (∀ x ∈ a, p x = true) →
      (a ++ b).dropWhile p = b.dropWhile p := by
  intro a
  induction a with
  | nil => intro b _; simp
  | cons x xs ih =>
    intro b h
    have hx : p x = true := h x (by simp)
    simp only [List.cons_append, List.dropWhile_cons_of_pos hx]
    exact ih b (fun y hy => h y (by simp [hy]))

/-- Splitting a single nonempty whitespace-free token yields that token. -/
theorem splitWS_single (t : List Char) (ht : t ≠ [])
    (hall : ∀ c ∈ t, pyIsSpace c = false) : splitWS t = [t] := by
  rcases t with _ | ⟨c, t'⟩
  · exact absurd rfl ht
  · have hc : pyIsSpace c = false := hall c (by simp)
    have hall' : ∀ x ∈ t', (fun x => !pyIsSpace x) x = true := by
      intro x hx
      simp [hall x (by simp [hx])]
    rw [splitWS_cons_nonspace hc]
    have h1 : t'.takeWhile (fun x => !pyIsSpace x) = t' := by
      have := takeWhile_append_all (p := fun x => !pyIsSpace x) t' [] hall'
      simpa using this
    have h2 : t'.dropWhile (fun x => !pyIsSpace x) = [] := by
      have := dropWhile_append_all (p := fun x => !pyIsSpace x) t' [] hall'
      simpa using this
    rw [h1, h2]
    simp [splitWS, splitWSAux]

/-- Splitting a token followed by a space continues with the remainder. -/
theorem splitWS_token_space (t rest : List Char) (ht : t ≠ [])
    (hall : ∀ c ∈ t, pyIsSpace c = false) :
    splitWS (t ++ ' ' :: rest) = t :: splitWS rest := by
  rcases t with _ | ⟨c, t'⟩
  · exact absurd rfl ht
  · have hc : pyIsSpace c = false := hall c (by simp)
    have hall' : ∀ x ∈ t', (fun x => !pyIsSpace x) x = true := by
      intro x hx
      simp [hall x (by simp [hx])]
    simp only [List.cons_append]
    rw [splitWS_cons_nonspace hc]
    have h1 : (t' ++ ' ' :: rest).takeWhile (fun x => !pyIsSpace x) = t' := by
      rw [takeWhile_append_all t' (' ' :: rest) hall']
      simp [List.takeWhile_cons_of_neg, pyIsSpace]
    have h2 : (t' ++ ' ' :: rest).dropWhile (fun x => !pyIsSpace x) = ' ' :: rest := by
      rw [dropWhile_append_all t' (' ' :: rest) hall']
      simp [List.dropWhile_cons_of_neg, pyIsSpace]
    rw [h1, h2]
    have hsp : pyIsSpace ' ' = true := by decide
    rw [splitWS_cons_space hsp]

/-- Round trip: splitting the single-space join of nonempty whitespace-free
tokens recovers exactly those tokens. -/
theorem splitWS_joinWS :
    ∀ ts : List (List Char),
      (∀ t ∈ ts, t ≠ [] ∧ ∀ c ∈ t, pyIsSpace c = false) →
      splitWS (joinWS ts) = ts := by
  intro ts
  induction ts with
  | nil => intro _; rfl
  | cons t ts ih =>
    intro h
    rcases ts with _ | ⟨t2, ts'⟩
    · have := h t (by simp)
      rw [joinWS]
      exact splitWS_single t this.1 this.2
    · have hht := h t (by simp)
      rw [joinWS, splitWS_token_space t _ hht.1 hht.2]
      rw [ih (fun x hx => h x (by simp [hx]))]

/-- Creating the cursor does not touch the statement history. -/
theorem ensureCursor_sent (s : PgState) : (ensureCursor s).sent = s.sent := by
  unfold ensureCursor
  cases s._cursor <;> rfl

/-- Executing a statement never changes the three capability caches. -/
theorem execute_caches (db : Db) (stmt : String) (s : PgState) :
    (execute db stmt s).2._is_pg_at_least_nine_two = s._is_pg_at_least_nine_two ∧
    (execute db stmt s).2._is_pg_at_least_thirteen = s._is_pg_at_least_thirteen ∧
    (execute db stmt s).2._pg_stat_statement = s._pg_stat_statement := by
  unfold execute ensureCursor
  cases h : db.respond (normalizeSql stmt) <;> cases s._cursor <;> simp [h]

/-- `execute` sends exactly one statement: the normalized form of its
argument. -/
theorem execute_sent (db : Db) (stmt : String) (s : PgState) :
    (execute db stmt s).2.sent = s.sent ++ [normalizeSql stmt] := by
  unfold execute
  cases h : db.respond (normalizeSql stmt) <;> simp [h, ensureCursor_sent]

/-- A closed session has no open cursor and no open connection. -/
theorem close_db_connection_closed (s : PgState) :
    isOpen (close_db_connection s)._cursor = false ∧
    isOpen (close_db_connection s)._conn = false := by
  unfold close_db_connection
  rcases hc : s._cursor with _ | b <;> rcases hn : s._conn with _ | b2 <;>
    simp [hc, hn, isOpen]

/-- First (uncached) call of `is_pg_at_least_nine_two`: it sends exactly
one version query, and caches the computed boolean exactly when it
returns one. -/
theorem nine_two_uncached (db : Db) (s : PgState)
    (h : s._is_pg_at_least_nine_two = none) :
    (is_pg_at_least_nine_two db s).2.sent =
      s.sent ++ [normalizeSql (sqlFor "version")] ∧
    (is_pg_at_least_nine_two db s).2._is_pg_at_least_nine_two =
      (match (is_pg_at_least_nine_two db s).1 with
       | Except.ok b => some b
       | Except.error _ => none) := by
  unfold is_pg_at_least_nine_two
  rw [h]
  rcases hv : version db s with ⟨rv, s1⟩
  have hs1 : s1.sent = s.sent ++ [normalizeSql (sqlFor "version")] := by
    have he := execute_sent db (sqlFor "version") s
    unfold version at hv
    rw [hv] at he
    exact he
  have hc1 : s1._is_pg_at_least_nine_two = none := by
    have he := (execute_caches db (sqlFor "version") s).1
    unfold version at hv
    rw [hv] at he
    rw [he, h]
  cases rv with
  | error e => simp [hv, hs1, hc1]
  | ok results =>
    cases hf : firstRowField results "version" with
    | error e => simp [hv, hf, hs1, hc1]
    | ok v =>
      cases v with
      | vStr vs =>
        cases hd : nineTwoDecision vs with
        | none => simp [hv, hf, hd, hs1, hc1]
        | some b => simp [hv, hf, hd, hs1, hc1]
      | vBool b => simp [hv, hf, hs1, hc1]
      | vNull => simp [hv, hf, hs1, hc1]

/-- First (uncached) call of `is_pg_at_least_thirteen`: one version query,
cache set exactly on success. -/
theorem thirteen_uncached (db : Db) (s : PgState)
    (h : s._is_pg_at_least_thirteen = none) :
    (is_pg_at_least_thirteen db s).2.sent =
      s.sent ++ [normalizeSql (sqlFor "version")] ∧
    (is_pg_at_least_thirteen db s).2._is_pg_at_least_thirteen =
      (match (is_pg_at_least_thirteen db s).1 with
       | Except.ok b => some b
       | Except.error _ => none) := by
  unfold is_pg_at_least_thirteen
  rw [h]
  rcases hv : version db s with ⟨rv, s1⟩
  have hs1 : s1.sent = s.sent ++ [normalizeSql (sqlFor "version")] := by
    have he := execute_sent db (sqlFor "version") s
    unfold version at hv
    rw [hv] at he
    exact he
  have hc1 : s1._is_pg_at_least_thirteen = none := by
    have he := (execute_caches db (sqlFor "version") s).2.1
    unfold version at hv
    rw [hv] at he
    rw [he, h]
  cases rv with
  | error e => simp [hv, hs1, hc1]
  | ok results =>
    cases hf : firstRowField results "version" with
    | error e => simp [hv, hf, hs1, hc1]
    | ok v =>
      cases v with
      | vStr vs =>
        cases hd : thirteenDecision vs with
        | none => simp [hv, hf, hd, hs1, hc1]
        | some b => simp [hv, hf, hd, hs1, hc1]
      | vBool b => simp [hv, hf, hs1, hc1]
      | vNull => simp [hv, hf, hs1, hc1]

/-- First (uncached) call of `pg_stat_statement`: one extension-check
query, cache set exactly on success. -/
theorem stat_uncached (db : Db) (s : PgState)
    (h : s._pg_stat_statement = none) :
    (pg_stat_statement db s).2.sent =
      s.sent ++ [normalizeSql (sqlFor "pg_stat_statement")] ∧
    (pg_stat_statement db s).2._pg_stat_statement =
      (match (pg_stat_statement db s).1 with
       | Except.ok b => some b
       | Except.error _ => none) := by
  unfold pg_stat_statement
  rw [h]
  rcases hv : execute db (sqlFor "pg_stat_statement") s with ⟨rv, s1⟩
  have hs1 : s1.sent = s.sent ++ [normalizeSql (sqlFor "pg_stat_statement")] := by
    have he := execute_sent db (sqlFor "pg_stat_statement") s
    rw [hv] at he
    exact he
  have hc1 : s1._pg_stat_statement = none := by
    have he := (execute_caches db (sqlFor "pg_stat_statement") s).2.2
    rw [hv] at he
    rw [he, h]
  cases rv with
  | error e => simp [hv, hs1, hc1]
  | ok results =>
    cases hf : firstRowField results "available" with
    | error e => simp [hv, hf, hs1, hc1]
    | ok v => simp [hv, hf, hs1, hc1]

/-- `pg_stat_statement` either answers from the cache (no query) or sends
exactly the extension-presence check. -/
theorem stat_sent (db : Db) (s : PgState) :
    (pg_stat_statement db s).2.sent = s.sent ∨
    (pg_stat_statement db s).2.sent =
      s.sent ++ [normalizeSql (sqlFor "pg_stat_statement")] := by
  cases h : s._pg_stat_statement with
  | none => exact Or.inr (stat_uncached db s h).1
  | some b =>
    left
    unfold pg_stat_statement
    rw [h]

/-- `getattr` fails with the unknown-attribute message exactly for names
that are not attributes of the instance. -/
theorem getattrPhase_unknown (db : Db) (m : String) (s : PgState)
    (hm : m ∉ pgExtrasAttrs) :
    getattrPhase db m s = (Except.error (PgErr.attributeError (noAttrMsg m)), s) := by
  have h1 : m ≠ "cursor" := fun hh => hm (hh ▸ (by decide))
  have h2 : m ≠ "query_column" := fun hh => hm (hh ▸ (by decide))
  have h3 : m ≠ "time_column" := fun hh => hm (hh ▸ (by decide))
  have h4 : m ≠ "pid_column" := fun hh => hm (hh ▸ (by decide))
  unfold getattrPhase
  rw [if_neg h1, if_neg h2, if_neg h3, if_neg h4, if_neg hm]

/-- Appending further names to a successfully completed prefix continues
the loop from the prefix's final state. -/
theorem runMethods_append (db : Db) :
    ∀ (ms1 : List String) (s : PgState) (done : List String) (s1 : PgState)
      (rest : List String),
      runMethods db ms1 s = (Except.ok done, s1) →
      runMethods db (ms1 ++ rest) s =
        (match runMethods db rest s1 with
         | (Except.ok done2, s2) => (Except.ok (done ++ done2), s2)
         | (Except.error e, s2) => (Except.error e, s2)) := by
  intro ms1
  induction ms1 with
  | nil =>
    intro s done s1 rest h
    simp only [runMethods, Prod.mk.injEq] at h
    obtain ⟨h1, h2⟩ := h
    have hd : done = [] := by
      cases h1
      rfl
    subst hd
    subst h2
    rcases hr : runMethods db rest s with ⟨rr, s2⟩
    cases rr <;> simp [hr]
  | cons a ms ih =>
    intro s done s1 rest h
    rcases hg : getattrPhase db a s with ⟨rg, sg⟩
    cases rg with
    | error e =>
      cases e <;> simp [runMethods, hg] at h
    | ok u =>
      rcases hi : invokeMethod db a sg with ⟨ri, si⟩
      cases ri with
      | error e =>
        simp [runMethods, hg, hi] at h
      | ok u2 =>
        rcases hr : runMethods db ms si with ⟨rr, sr⟩
        cases rr with
        | error e =>
          simp [runMethods, hg, hi, hr] at h
        | ok done2 =>
          simp only [runMethods, hg, hi, hr, Prod.mk.injEq] at h
          obtain ⟨h1, h2⟩ := h
          have hd : done = a :: done2 := by
            cases h1
            rfl
          subst hd
          subst h2
          have hext := ih si done2 sr rest hr
          rcases hr2 : runMethods db rest sr with ⟨rr2, s3⟩
          rw [hr2] at hext
          simp only [List.cons_append, runMethods, hg, hi, List.append_eq]
          rw [hext]
          cases rr2 <;> simp
  
/-- A completed prefix followed by a non-attribute name aborts with
`SystemExit(1, ...)` at that name, leaving the prefix's final state. -/
theorem runMethods_ok_then_unknown (db : Db) (s : PgState)
    (ms1 : List String) (m : String) (ms2 : List String)
    (done : List String) (s1 : PgState)
    (hpre : runMethods db ms1 s = (Except.ok done, s1))
    (hm : m ∉ pgExtrasAttrs) :
    runMethods db (ms1 ++ m :: ms2) s =
      (Except.error (MainErr.systemExit 1 (noAttrMsg m)), s1) := by
  rw [runMethods_append db ms1 s done s1 (m :: ms2) hpre]
  have hg := getattrPhase_unknown db m s1 hm
  simp [runMethods, hg]

/-- Only lists every member of which is an attribute can complete
successfully. -/
theorem runMethods_ok_attrs (db : Db) :
    ∀ (ms : List String) (s : PgState) (done : List String) (s1 : PgState),
      runMethods db ms s = (Except.ok done, s1) →
      ∀ m ∈ ms, m ∈ pgExtrasAttrs := by
  intro ms
  induction ms with
  | nil =>
    intro s done s1 h m hm
    exact absurd hm (List.not_mem_nil m)
  | cons a ms ih =>
    intro s done s1 h m hm
    rcases hg : getattrPhase db a s with ⟨rg, sg⟩
    cases rg with
    | error e =>
      cases e <;> simp [runMethods, hg] at h
    | ok u =>
      rcases hi : invokeMethod db a sg with ⟨ri, si⟩
      cases ri with
      | error e =>
        simp [runMethods, hg, hi] at h
      | ok u2 =>
        rcases hr : runMethods db ms si with ⟨rr, sr⟩
        cases rr with
        | error e =>
          simp [runMethods, hg, hi, hr] at h
        | ok done2 =>
          rcases List.mem_cons.mp hm with hma | hma
          · subst hma
            by_contra hnot
            rw [getattrPhase_unknown db m s hnot] at hg
            exact absurd (congrArg Prod.fst hg) (by simp)
          · exact ih si done2 sr hr m hma

/-- Claim C1, counterexample: with truncation enabled, a 150-character
query string renders as its first 119 characters followed by the
two-character marker ".." — not, as claimed, as its first 120 characters
followed by "...": the generated SQL is `substr(col, 0, 120) || '..'`, and
PostgreSQL's `substr` with start position 0 yields positions 1..119. -/
theorem C1_counterexample :
    renderTruncatedColumn ⟨List.replicate 150 'a'⟩ =
      (⟨List.replicate 119 'a'⟩ : String) ++ ".." ∧
    renderTruncatedColumn ⟨List.replicate 150 'a'⟩ ≠
      (⟨List.replicate 120 'a'⟩ : String) ++ "..." := by
  exact ⟨by decide, by decide⟩

/-- Claim C1, amended: for every column name, when truncation is enabled
`truncate_query` wraps the column in the conditional SQL expression
`CASE WHEN length(col) < 120 THEN col ELSE substr(col, 0, 120) || '..'
END`, which under PostgreSQL semantics returns the full text when it is
shorter than 120 characters and otherwise the first 119 characters
followed by the two-character marker ".."; when truncation is disabled the
column is passed through unchanged. -/
theorem C1_truncation (column_name : String) (q : String) :
    truncate_query false column_name = column_name ∧
    truncate_query true column_name =
      "\n                CASE WHEN length(" ++ column_name ++
        ") < 120\n                    THEN " ++ column_name ++
        "\n                    ELSE substr(" ++ column_name ++
        ", 0, 120) || \x27..\x27\n                END\n            " ∧
    renderTruncatedColumn q =
      (if q.length < 120 then q else (⟨q.data.take 119⟩ : String) ++ "..") := by
  refine ⟨rfl, rfl, ?_⟩
  by_cases h : q.length < 120
  · simp [renderTruncatedColumn, h]
  · have hsub : pgSubstr q 0 120 = (⟨q.data.take 119⟩ : String) := by
      simp [pgSubstr]
    simp [renderTruncatedColumn, h, hsub]

/-- Claim C2: the code bug evaluated — `is_pg_at_least_nine_two` uses a
strict `>` against `"9.2.0"`, so a server at exactly version 9.2.0 reports
`false` although 9.2.0 is at least 9.2 (their release tuples compare
equal); the spec's worked examples (9.3.3 and 13.4) behave as stated. -/
theorem C2_version_gate :
    (is_pg_at_least_nine_two db92 initialState).1 = Except.ok false ∧
    cmpVersions [9, 2, 0] [9, 2] = Ordering.eq ∧
    nineTwoDecision "PostgreSQL 9.2.0 on x86_64-pc-linux-gnu" = some false ∧
    nineTwoDecision "PostgreSQL 9.3.3 on x86_64-apple-darwin13.0.0" = some true ∧
    thirteenDecision "PostgreSQL 9.3.3 on x86_64-apple-darwin13.0.0" = some false ∧
    thirteenDecision "PostgreSQL 13.4 on x86_64-pc-linux-gnu" = some true ∧
    parseVersionString "PostgreSQL 9.3.3 on x86_64-apple-darwin13.0.0" =
      some [9, 3, 3] := by
  refine ⟨by decide, by decide, by decide, by decide, by decide, by decide, by decide⟩

/-- Claim C3, counterexample: the server version is not cached — two
`version()` calls send two version queries, and running the two boolean
getters in sequence also sends two version queries (the second getter does
not reuse the first getter's version result). -/
theorem C3_counterexample :
    (version goodDb (version goodDb initialState).2).2.sent =
      [normalizeSql (sqlFor "version"), normalizeSql (sqlFor "version")] ∧
    (is_pg_at_least_thirteen goodDb
        (is_pg_at_least_nine_two goodDb initialState).2).2.sent.length = 2 := by
  exact ⟨by decide, by decide⟩

/-- Claim C3, amended: the three boolean capability fields
(`atLeastNineTwo`, `atLeastThirteen`, `hasStatStatements`) are memoized —
with the cache set, each getter returns the cached value and leaves the
state untouched (no query); with the cache unset, each getter sends
exactly one underlying query and caches the boolean exactly when it
computes one.  The server version itself is not cached: every computation
of a boolean getter issues its own fresh version query (see the
counterexample). -/
theorem C3_capability_caching (db : Db) (s : PgState) (b : Bool) :
    is_pg_at_least_nine_two db { s with _is_pg_at_least_nine_two := some b } =
      (Except.ok b, { s with _is_pg_at_least_nine_two := some b }) ∧
    is_pg_at_least_thirteen db { s with _is_pg_at_least_thirteen := some b } =
      (Except.ok b, { s with _is_pg_at_least_thirteen := some b }) ∧
    pg_stat_statement db { s with _pg_stat_statement := some b } =
      (Except.ok b, { s with _pg_stat_statement := some b }) ∧
    (is_pg_at_least_nine_two db
        { s with _is_pg_at_least_nine_two := none }).2.sent =
      s.sent ++ [normalizeSql (sqlFor "version")] ∧
    (is_pg_at_least_thirteen db
        { s with _is_pg_at_least_thirteen := none }).2.sent =
      s.sent ++ [normalizeSql (sqlFor "version")] ∧
    (pg_stat_statement db { s with _pg_stat_statement := none }).2.sent =
      s.sent ++ [normalizeSql (sqlFor "pg_stat_statement")] ∧
    (is_pg_at_least_nine_two db
        { s with _is_pg_at_least_nine_two := none }).2._is_pg_at_least_nine_two =
      (match (is_pg_at_least_nine_two db
          { s with _is_pg_at_least_nine_two := none }).1 with
       | Except.ok b2 => some b2
       | Except.error _ => none) := by
  refine ⟨rfl, rfl, rfl, ?_, ?_, ?_, ?_⟩
  · exact (nine_two_uncached db _ rfl).1
  · exact (thirteen_uncached db _ rfl).1
  · exact (stat_uncached db _ rfl).1
  · exact (nine_two_uncached db _ rfl).2

/-- Claim C4, counterexample: `execute` deletes newlines before collapsing
whitespace, so a template whose tokens are separated only by a newline has
its tokens fused: `"a\nb"` is sent as `"ab"`, not as the single-spaced
`"a b"` that pure whitespace-run collapsing would give. -/
theorem C4_counterexample :
    normalizeSql "a\nb" = "ab" ∧
    specCollapseWS "a\nb" = "a b" ∧
    normalizeSql "a\nb" ≠ specCollapseWS "a\nb" := by
  exact ⟨by decide, by decide, by decide⟩

/-- Claim C4, amended: before a statement is sent, `execute` first deletes
every newline character and then collapses every remaining whitespace run
to a single space; the sent string is single-spaced (collapsing it again
changes nothing) and its tokens are exactly the whitespace-separated
tokens of the newline-deleted statement, in order — tokens separated only
by newlines are therefore concatenated rather than preserved. -/
theorem C4_whitespace_normalization (db : Db) (statement : String)
    (s : PgState) :
    (execute db statement s).2.sent = s.sent ++ [normalizeSql statement] ∧
    splitWS (normalizeSql statement).data =
      splitWS (removeNewlines statement.data) ∧
    joinWS (splitWS (normalizeSql statement).data) =
      (normalizeSql statement).data := by
  refine ⟨execute_sent db statement s, ?_, ?_⟩
  · show splitWS (normalizeSqlL statement.data) = _
    unfold normalizeSqlL
    exact splitWS_joinWS _ (splitWS_tokens _)
  · show joinWS (splitWS (normalizeSqlL statement.data)) =
      normalizeSqlL statement.data
    unfold normalizeSqlL
    rw [splitWS_joinWS _ (splitWS_tokens _)]

/-- Claim C5: whenever the extension check reports `false`, `calls` and
`outliers` return (rather than raise) exactly one row with exactly one
column named `error` holding the fixed non-empty instructional message,
and they send no statement other than (at most) the extension-presence
check itself. -/
theorem C5_degraded_result (db : Db) (s s1 : PgState)
    (h : pg_stat_statement db s = (Except.ok false, s1)) :
    calls db s = (Except.ok [get_missing_pg_stat_statement_error], s1) ∧
    outliers db s = (Except.ok [get_missing_pg_stat_statement_error], s1) ∧
    get_missing_pg_stat_statement_error.length = 1 ∧
    get_missing_pg_stat_statement_error.map Prod.fst = ["error"] ∧
    missingExtensionText ≠ "" ∧
    (s1.sent = s.sent ∨
      s1.sent = s.sent ++ [normalizeSql (sqlFor "pg_stat_statement")]) := by
  refine ⟨?_, ?_, rfl, rfl, by decide, ?_⟩
  · unfold calls
    rw [h]
  · unfold outliers
    rw [h]
  · have hs := stat_sent db s
    rw [h] at hs
    exact hs

/-- Witness for C5 at a concrete oracle whose extension check reports
unavailable. -/
theorem C5_witness :
    calls noStatDb initialState =
      (Except.ok [get_missing_pg_stat_statement_error],
        (pg_stat_statement noStatDb initialState).2) :=
  (C5_degraded_result noStatDb initialState
    (pg_stat_statement noStatDb initialState).2 (by decide)).1

/-- Claim C7: on every exit path of the session scope — normal completion,
the unknown-operation `SystemExit`, or a propagating query fault — the
cursor and the connection are closed before control leaves `mainRun`
(the `with` block runs `close_db_connection` unconditionally). -/
theorem C7_scoped_cleanup (db : Db) (dsn : String) (methods : List String) :
    isOpen (mainRun db dsn methods).2._cursor = false ∧
    isOpen (mainRun db dsn methods).2._conn = false :=
  close_db_connection_closed _

/-- Claim C6: when a completed prefix of the requested names is followed by
a name that is not an attribute of the session, the invocation terminates
at that name with `SystemExit` code 1 (non-zero) and a message carrying
the offending name, leaving the state exactly as after the prefix — no
later name is processed. -/
theorem C6_unknown_operation (db : Db) (s : PgState) (ms1 : List String)
    (m : String) (ms2 : List String) (done : List String) (s1 : PgState)
    (hpre : runMethods db ms1 s = (Except.ok done, s1))
    (hm : m ∉ pgExtrasAttrs) :
    runMethods db (ms1 ++ m :: ms2) s =
      (Except.error (MainErr.systemExit 1 (noAttrMsg m)), s1) ∧
    (∃ pre post, noAttrMsg m = pre ++ m ++ post) ∧
    (1 : Nat) ≠ 0 := by
  refine ⟨runMethods_ok_then_unknown db s ms1 m ms2 done s1 hpre hm,
    ⟨"\x27PgExtras\x27 object has no attribute \x27", "\x27", rfl⟩, by decide⟩

/-- Witness for C6: after `version` succeeds, the unknown name `bogus`
aborts the run and `cache_hit` is never processed. -/
theorem C6_witness :
    runMethods goodDb (["version"] ++ "bogus" :: ["cache_hit"]) initialState =
      (Except.error (MainErr.systemExit 1 (noAttrMsg "bogus")),
        (runMethods goodDb ["version"] initialState).2) :=
  (C6_unknown_operation goodDb initialState ["version"] "bogus" ["cache_hit"]
    ["version"] (runMethods goodDb ["version"] initialState).2
    (by decide) (by decide)).1

/-- Claim C8: for a server version string the regex does not match, each
boolean capability getter fails with the propagating `AttributeError`
(`None.groups()`) instead of returning a boolean; the version query is
sent exactly once (no retry) and no capability value is cached. -/
theorem C8_version_parse_failure (db : Db) (s : PgState) (vs : String)
    (hparse : parseVersionString vs = none)
    (hdb : db.respond (normalizeSql (sqlFor "version")) =
      Except.ok [[("version", Value.vStr vs)]])
    (h92 : s._is_pg_at_least_nine_two = none)
    (h13 : s._is_pg_at_least_thirteen = none) :
    (is_pg_at_least_nine_two db s).1 =
      Except.error (PgErr.attributeError noneGroupsMsg) ∧
    (is_pg_at_least_thirteen db s).1 =
      Except.error (PgErr.attributeError noneGroupsMsg) ∧
    (is_pg_at_least_nine_two db s).2.sent =
      s.sent ++ [normalizeSql (sqlFor "version")] ∧
    (is_pg_at_least_nine_two db s).2._is_pg_at_least_nine_two = none := by
  have hver : version db s =
      (Except.ok [[("version", Value.vStr vs)]],
        { ensureCursor s with
            sent := (ensureCursor s).sent ++ [normalizeSql (sqlFor "version")] }) := by
    unfold version execute
    dsimp only
    rw [hdb]
  have hfrf : firstRowField [[("version", Value.vStr vs)]] "version" =
      Except.ok (Value.vStr vs) := rfl
  have hd92 : nineTwoDecision vs = none := by
    unfold nineTwoDecision
    rw [hparse]
  have hd13 : thirteenDecision vs = none := by
    unfold thirteenDecision
    rw [hparse]
  have h1 : (is_pg_at_least_nine_two db s).1 =
      Except.error (PgErr.attributeError noneGroupsMsg) := by
    unfold is_pg_at_least_nine_two
    rw [h92, hver]
    simp [hfrf, hd92]
  refine ⟨h1, ?_, (nine_two_uncached db s h92).1, ?_⟩
  · unfold is_pg_at_least_thirteen
    rw [h13, hver]
    simp [hfrf, hd13]
  · have h2 := (nine_two_uncached db s h92).2
    rw [h1] at h2
    simpa using h2

/-- Witness for C8 at a concrete oracle whose version row does not match
the expected pattern. -/
theorem C8_witness :
    (is_pg_at_least_nine_two badVersionDb initialState).1 =
      Except.error (PgErr.attributeError noneGroupsMsg) ∧
    (is_pg_at_least_thirteen badVersionDb initialState).1 =
      Except.error (PgErr.attributeError noneGroupsMsg) :=
  ⟨(C8_version_parse_failure badVersionDb initialState
      "EnterpriseDB 9.3.3, compiled" (by decide) (by decide) rfl rfl).1,
   (C8_version_parse_failure badVersionDb initialState
      "EnterpriseDB 9.3.3, compiled" (by decide) (by decide) rfl rfl).2.1⟩

/-- Claim C9, counterexample: the unknown-operation fatal exit is not
raised only for non-attributes — `query_column` is an attribute of the
session, yet requesting it against a server with an unparsable version
string raises `AttributeError` inside the property getter during
`getattr`, which `main` converts to the same `SystemExit` path (with the
`NoneType`/`groups` message). -/
theorem C9_counterexample :
    "query_column" ∈ pgExtrasAttrs ∧
    (runMethods badVersionDb ["query_column"] initialState).1 =
      Except.error (MainErr.systemExit 1 noneGroupsMsg) := by
  exact ⟨by decide, by decide⟩

/-- Claim C9, amended: dispatch validation accepts any attribute of the
session object — `close_db_connection` and `execute` pass validation and
are invoked (`close_db_connection()` succeeds; `execute()` raises
`TypeError`, which propagates, not the unknown-operation exit) — and the
`SystemExit` path fires exactly when the `getattr` phase raises
`AttributeError`: for names that are not attributes at all, or for a
property-backed name whose getter itself raises `AttributeError`. -/
theorem C9_attribute_dispatch (db : Db) (s : PgState) (m : String) :
    runMethods db ["close_db_connection"] s =
      (Except.ok ["close_db_connection"], close_db_connection s) ∧
    (runMethods db ["execute"] s).1 =
      Except.error (MainErr.uncaught PgErr.typeError) ∧
    "close_db_connection" ∈ pgExtrasAttrs ∧
    "execute" ∈ pgExtrasAttrs ∧
    (∀ c msg, (runMethods db [m] s).1 =
        Except.error (MainErr.systemExit c msg) →
      (getattrPhase db m s).1 = Except.error (PgErr.attributeError msg) ∧
        c = 1) := by
  refine ⟨rfl, rfl, by decide, by decide, ?_⟩
  intro c msg h
  rcases hg : getattrPhase db m s with ⟨rg, sg⟩
  cases rg with
  | ok u =>
    rcases hi : invokeMethod db m sg with ⟨ri, si⟩
    cases ri with
    | ok u2 => simp [runMethods, hg, hi] at h
    | error e => simp [runMethods, hg, hi] at h
  | error e =>
    cases e with
    | attributeError msg2 =>
      simp only [runMethods, hg] at h
      rw [Except.error.injEq, MainErr.systemExit.injEq] at h
      obtain ⟨hc, hmsg⟩ := h
      constructor
      · rw [hmsg]
      · omega
    | queryFault => simp [runMethods, hg] at h
    | indexError => simp [runMethods, hg] at h
    | typeError => simp [runMethods, hg] at h

/-- Witness for C9: the `SystemExit` observed for `query_column` against
the bad-version oracle indeed stems from an `AttributeError` in the
`getattr` phase. -/
theorem C9_witness :
    (getattrPhase badVersionDb "query_column" initialState).1 =
      Except.error (PgErr.attributeError noneGroupsMsg) ∧ (1 : Nat) = 1 :=
  (C9_attribute_dispatch badVersionDb initialState "query_column").2.2.2.2
    1 noneGroupsMsg (by decide)

/-- Claim C10: `"all"` expands — to every catalog entry except itself, in
catalog order — only when it is the sole requested name; in any other
request list it is left as an ordinary name, and since it is not an
attribute of the session, the whole invocation aborts: after a completed
prefix it aborts exactly with the unknown-operation `SystemExit` at
`"all"`, and in general such a run can never complete successfully. -/
theorem C10_all_aggregate :
    expandMethods ["all"] =
      ["bloat", "blocking", "cache_hit", "calls", "index_usage", "locks",
       "long_running_queries", "outliers", "ps", "seq_scans",
       "total_index_size", "total_indexes_size", "table_size",
       "total_table_size", "unused_indexes", "vacuum_stats", "version"] ∧
    "all" ∉ expandMethods ["all"] ∧
    (∀ ms : List String, ms ≠ ["all"] → expandMethods ms = ms) ∧
    (∀ (db : Db) (s : PgState) (ms1 ms2 : List String)
        (done : List String) (s1 : PgState),
      runMethods db ms1 s = (Except.ok done, s1) →
      runMethods db (ms1 ++ "all" :: ms2) s =
        (Except.error (MainErr.systemExit 1 (noAttrMsg "all")), s1)) ∧
    (∀ (db : Db) (dsn : String) (ms : List String), "all" ∈ ms →
      ms ≠ ["all"] → ∀ done, (mainRun db dsn ms).1 ≠ Except.ok done) := by
  refine ⟨by decide, by decide, ?_, ?_, ?_⟩
  · intro ms hms
    unfold expandMethods
    rw [if_neg hms]
  · intro db s ms1 ms2 done s1 hpre
    exact runMethods_ok_then_unknown db s ms1 "all" ms2 done s1 hpre (by decide)
  · intro db dsn ms hmem hne done hok
    have hexp : expandMethods ms = ms := by
      unfold expandMethods
      rw [if_neg hne]
    rcases hr : runMethods db (expandMethods ms) (PgExtras.init dsn false true)
      with ⟨rr, sr⟩
    have h1 : (mainRun db dsn ms).1 = rr := by
      unfold mainRun
      rw [hr]
    rw [h1] at hok
    rw [hok] at hr
    have hall := runMethods_ok_attrs db (expandMethods ms)
      (PgExtras.init dsn false true) done sr hr "all"
      (by rw [hexp]; exact hmem)
    exact absurd hall (by decide)

/-- Witness for C10: `["version", "all"]` is not expanded; the run aborts
at `"all"` with the unknown-operation exit after `version` completes. -/
theorem C10_witness :
    runMethods goodDb (["version"] ++ "all" :: []) initialState =
      (Except.error (MainErr.systemExit 1 (noAttrMsg "all")),
        (runMethods goodDb ["version"] initialState).2) ∧
    (mainRun goodDb "postgres://localhost/db" ["version", "all"]).1 ≠
      Except.ok ["version", "all"] := by
  constructor
  · exact C10_all_aggregate.2.2.2.1 goodDb initialState ["version"] []
      ["version"] (runMethods goodDb ["version"] initialState).2 (by decide)
  · exact C10_all_aggregate.2.2.2.2 goodDb "postgres://localhost/db"
      ["version", "all"] (by decide) (by decide) ["version", "all"]
